import Mathlib

/-!
Verification of the MindScribe journal front-end (src/app.py).

The app is a Streamlit single page: an API client of four HTTP wrappers
(fetch_journals / create_journal / update_journal / delete_journal, lines
32-68), a creation form (lines 80-94) and a card list with per-entry
edit/delete wiring driven by st.session_state (lines 101-161).

The embedding below translates that code into pure Lean functions.  HTTP
is modelled by an `HttpOutcome` value describing what the requests call
produced; Streamlit session state is an explicit record; every handler
returns the new state together with the API calls it issued, the notices
it displayed and whether it called st.rerun().
-/

namespace MindScribe

/-- Calendar date, the value carried by a Python datetime.date. -/
structure Date where
  year : Nat
  month : Nat
  day : Nat
deriving Repr, DecidableEq

/-- A journal entry as the app sees it: a JSON dict from which the code
only ever reads the keys id, title, content and date via dict.get.  A
`none` field models a missing key (the code never distinguishes a missing
key from a key stored as Python None, since it only uses .get). -/
structure Entry where
  id? : Option Int
  title? : Option String
  content? : Option String
  date? : Option String
deriving Repr, DecidableEq

/-- JSON value, used for the body of a create response (r.json()). -/
inductive Json where
  | null
  | bool (b : Bool)
  | num (n : Int)
  | str (s : String)
  | arr (elems : List Json)
  | obj (fields : List (String × Json))

/-- Python truthiness of a JSON value, as used by `if created:`
(src/app.py line 92). -/
def Json.truthy : Json → Bool
  | .null => false
  | .bool b => b
  | .num n => n != 0
  | .str s => !s.isEmpty
  | .arr l => !l.isEmpty
  | .obj f => !f.isEmpty

/-- Outcome of one HTTP request issued with the requests library: either
the call itself raised a transport-level exception (connection refused,
DNS, timeout), or a response arrived with a status code and, for the
calls that parse it, an optional decoded body (`none` when `.json()`
would raise a decode error). -/
inductive HttpOutcome (β : Type) where
  | transportError (msg : String)
  | response (status : Nat) (body : Option β)
deriving Repr, DecidableEq

/-- requests.Response.raise_for_status raises HTTPError exactly when the
status code is in 400..599 (client or server error); 1xx, 2xx and 3xx
codes do not raise. -/
def raisesForStatus (status : Nat) : Bool :=
  (400 ≤ status && status < 500) || (500 ≤ status && status < 600)

/-- Body of the try block of fetch_journals (src/app.py lines 33-36):
requests.get, raise_for_status, r.json().  An `.error` value is the
exception the Python code would raise at that point. -/
def fetchAttempt (o : HttpOutcome (List Entry)) : Except String (List Entry) :=
  match o with
  | .transportError e => .error e
  | .response s body =>
      if raisesForStatus s then .error (toString s ++ " Error")
      else match body with
           | some js => .ok js
           | none => .error "JSONDecodeError"

/-- fetch_journals (src/app.py lines 32-39): the try/except wrapper.
Returns the list together with the st.error notice, if one was shown. -/
def fetch_journals (o : HttpOutcome (List Entry)) : List Entry × Option String :=
  match fetchAttempt o with
  | .ok js => (js, none)
  | .error e => ([], some ("Could not fetch journals: " ++ e))

/-- Body of the try block of create_journal (src/app.py lines 42-45). -/
def createAttempt (o : HttpOutcome Json) : Except String Json :=
  match o with
  | .transportError e => .error e
  | .response s body =>
      if raisesForStatus s then .error (toString s ++ " Error")
      else match body with
           | some js => .ok js
           | none => .error "JSONDecodeError"

/-- create_journal (src/app.py lines 41-48): on any exception, st.error
and return None. -/
def create_journal (o : HttpOutcome Json) : Option Json × Option String :=
  match createAttempt o with
  | .ok js => (some js, none)
  | .error e => (none, some ("Create failed: " ++ e))

/-- Body of the try block of update_journal / delete_journal (src/app.py
lines 51-55 and 61-65): the response body is never parsed, only
raise_for_status is consulted. -/
def writeAttempt (o : HttpOutcome Unit) : Except String Unit :=
  match o with
  | .transportError e => .error e
  | .response s _ => if raisesForStatus s then .error (toString s ++ " Error") else .ok ()

/-- update_journal (src/app.py lines 50-58): True when the try block ran
through, otherwise st.error and False. -/
def update_journal (o : HttpOutcome Unit) : Bool × Option String :=
  match writeAttempt o with
  | .ok _ => (true, none)
  | .error e => (false, some ("Update failed: " ++ e))

/-- delete_journal (src/app.py lines 60-68): same contract as update. -/
def delete_journal (o : HttpOutcome Unit) : Bool × Option String :=
  match writeAttempt o with
  | .ok _ => (true, none)
  | .error e => (false, some ("Delete failed: " ++ e))

/-- Escape of one character, after Python's html.escape with quote=True:
the five characters amp, lt, gt, double quote and single quote are
replaced by entities, everything else is kept.  (html.escape performs the
replaces sequentially starting with the ampersand, which is extensionally
the same as this character-wise map since no replacement string contains
a character that a later replace targets.) -/
def escapeChar (c : Char) : String :=
  if c = '&' then "&amp;"
  else if c = '<' then "&lt;"
  else if c = '>' then "&gt;"
  else if c = Char.ofNat 34 then "&quot;"
  else if c = Char.ofNat 39 then "&#x27;"
  else String.mk [c]

/-- Python html.escape(s) with the default quote=True. -/
def htmlEscape (s : String) : String :=
  String.join (s.toList.map escapeChar)

/-- Markdown wrapper emitted for the date line (src/app.py line 112);
note the date string goes in as-is, unescaped and unreformatted. -/
def mutedDiv (s : String) : String :=
  "<div class=\"muted\">" ++ s ++ "</div>"

/-- Markdown wrapper emitted for the title line (src/app.py line 113). -/
def bigTitleDiv (s : String) : String :=
  "<div class=\"big-title\">" ++ s ++ "</div>"

/-- Markdown wrapper emitted for the content line (src/app.py line 114). -/
def smallDiv (s : String) : String :=
  "<div class=\"small\">" ++ s ++ "</div>"

/-- The five st.markdown strings emitted for one journal card (src/app.py
lines 111-115): opening card div, raw date, escaped title, escaped
content, spacer.  Missing dict keys default to the empty string via
dict.get(key, ""). -/
def renderCardMarkdown (j : Entry) : List String :=
  [ "<div class=\"journal-card\">"
  , mutedDiv (j.date?.getD "")
  , bigTitleDiv (htmlEscape (j.title?.getD ""))
  , smallDiv (htmlEscape (j.content?.getD ""))
  , "<div style=\x27height:8px\x27></div>" ]

/-- Split a character list at every hyphen (the shape check that
strptime's "%Y-%m-%d" pattern performs on the separators). -/
def splitHyphens : List Char → List (List Char)
  | [] => [[]]
  | c :: rest =>
      let r := splitHyphens rest
      if c = '-' then [] :: r
      else match r with
           | [] => [[c]]
           | g :: gs => (c :: g) :: gs

/-- ASCII decimal digit test. -/
def isAsciiDigit (c : Char) : Bool :=
  48 ≤ c.toNat && c.toNat ≤ 57

/-- Numeric value of an ASCII digit string. -/
def natOfDigits (cs : List Char) : Nat :=
  cs.foldl (fun a c => 10 * a + (c.toNat - 48)) 0

/-- Gregorian leap-year rule, as implemented by Python's datetime. -/
def isLeap (y : Nat) : Bool :=
  (y % 4 = 0 && y % 100 != 0) || y % 400 = 0

/-- Days in a month, as validated by the datetime.date constructor. -/
def daysInMonth (y m : Nat) : Nat :=
  if m = 2 then (if isLeap y then 29 else 28)
  else if m = 4 || m = 6 || m = 9 || m = 11 then 30
  else 31

/-- datetime.strptime(s, "%Y-%m-%d").date() as a total function:
`some d` when the parse succeeds, `none` when Python would raise.
Per CPython's _strptime, %Y matches exactly four digits, %m and %d match
one or two digits, the whole string must be consumed, and the resulting
year/month/day must form a valid calendar date (year at least 1). -/
def parseDateYMD (s : String) : Option Date :=
  match splitHyphens s.toList with
  | [ys, ms, ds] =>
      if ys.length = 4 && ys.all isAsciiDigit
          && 1 ≤ ms.length && ms.length ≤ 2 && ms.all isAsciiDigit
          && 1 ≤ ds.length && ds.length ≤ 2 && ds.all isAsciiDigit then
        let y := natOfDigits ys
        let m := natOfDigits ms
        let d := natOfDigits ds
        if 1 ≤ y && 1 ≤ m && m ≤ 12 && 1 ≤ d && d ≤ daysInMonth y m then
          some ⟨y, m, d⟩
        else none
      else none
  | _ => none

/-- Left-pad a number with zeros to a fixed width, as strftime does. -/
def padZero (w : Nat) (n : Nat) : String :=
  let s := toString n
  String.mk (List.replicate (w - s.length) '0') ++ s

/-- iso_date (src/app.py lines 70-71): dt.strftime("%Y-%m-%d"). -/
def iso_date (d : Date) : String :=
  padZero 4 d.year ++ "-" ++ padZero 2 d.month ++ "-" ++ padZero 2 d.day

/-- Streamlit session state as the app uses it.  edit_id is modelled by
the value st.session_state.get("edit_id") returns: an absent key and a
key stored as Python None both give `none`, and the two are
observationally identical everywhere the code touches edit_id (the .get
comparison on line 141 and the pop with default on lines 156/160).  For
the three draft keys `none` models an absent key and `some v` a present
key holding v, itself an Option because j.get("title") and
j.get("content") can return Python None (lines 123-124); the stored date
is always an actual date, by the except fallback on lines 126-129. -/
structure SessionState where
  editId : Option Int := none
  editTitle : Option (Option String) := none
  editContent : Option (Option String) := none
  editDate : Option Date := none
deriving Repr, DecidableEq

/-- JSON body sent to the backend on create and update (src/app.py
lines 90 and 147-151).  Title and content are Options because the update
payload forwards session values that can be Python None. -/
structure Payload where
  title : Option String
  content : Option String
  date : String
deriving Repr, DecidableEq

/-- One HTTP request issued by the UI layer, with its arguments. -/
inductive ApiCall where
  | getList
  | post (payload : Payload)
  | put (id : Option Int) (payload : Payload)
  | del (id : Option Int)
deriving Repr, DecidableEq

/-- Line 141: `st.session_state.get("edit_id") == j.get("id")` decides
whether the inline edit form renders under card j.  Python None == None
is True, so two absent values compare equal. -/
def isEditing (s : SessionState) (j : Entry) : Bool :=
  s.editId == j.id?

/-- Edit button handler (src/app.py lines 120-130): snapshot the entry's
title, content and date into session draft state — the date string is
parsed with strptime "%Y-%m-%d" and on any parse failure today's date is
substituted — then st.rerun().  The Bool is the rerun trigger. -/
def handleEditClick (j : Entry) (s : SessionState) (today : Date) :
    SessionState × Bool :=
  ({ s with
      editId := j.id?
      editTitle := some j.title?
      editContent := some j.content?
      editDate := some ((parseDateYMD (j.date?.getD "")).getD today) }, true)

/-- Save Changes handler inside the update form (src/app.py lines
146-157): read the draft from session state (a missing draft key would be
a KeyError, modelled as `.error`; unreachable after an Edit click), build
the payload, call update_journal with the card's id, and on success pop
only the edit_id key and rerun.  Returns the new state, the API calls
issued, the error notice if any, and the rerun flag.  (The st.success
toast on line 154 is not modelled.) -/
def handleSave (j : Entry) (s : SessionState) (o : HttpOutcome Unit) :
    Except String (SessionState × List ApiCall × Option String × Bool) :=
  match s.editTitle, s.editContent, s.editDate with
  | some t, some c, some d =>
      let payload : Payload := { title := t, content := c, date := iso_date d }
      let r := update_journal o
      if r.1 then
        .ok ({ s with editId := none }, [ApiCall.put j.id? payload], r.2, true)
      else
        .ok (s, [ApiCall.put j.id? payload], r.2, false)
  | _, _, _ => .error "KeyError"

/-- Cancel edit button (src/app.py lines 159-161): pop the edit_id key
(the draft title/content/date keys are not touched) and rerun.  No API
call is made. -/
def handleCancel (s : SessionState) : SessionState × List ApiCall × Bool :=
  ({ s with editId := none }, [], true)

/-- Delete button handler (src/app.py lines 133-137): call delete_journal
with j.get("id") and rerun only on success.  Returns the calls issued,
the error notice if any, and the rerun flag. -/
def handleDelete (j : Entry) (o : HttpOutcome Unit) :
    List ApiCall × Option String × Bool :=
  let r := delete_journal o
  ([ApiCall.del j.id?], r.2, r.1)

/-- Widget values of the creation form (src/app.py lines 83-85). -/
structure CreateFormState where
  title : String
  content : String
  date : Date
deriving Repr, DecidableEq

/-- Initial creation-form widget values: empty title and content, and a
date picker defaulting to today (src/app.py lines 83-85). -/
def initialCreateForm (today : Date) : CreateFormState :=
  { title := "", content := "", date := today }

/-- The creation form is declared st.form("create_form",
clear_on_submit=True) on line 81.  With clear_on_submit=True, Streamlit
resets every widget inside the form to its initial value after the user
presses the submit button, whatever the submit handler then does. -/
def clearOnSubmit : Bool := true

/-- Create-form submission (src/app.py lines 89-94): build the payload
from the entered values, POST it via create_journal, and call st.rerun()
only when the returned JSON is truthy (`if created:`).  The returned form
state is what the widgets show after the submit; because
clearOnSubmit is true it is the initial form regardless of outcome. -/
def handleCreateSubmit (entered : CreateFormState) (o : HttpOutcome Json)
    (today : Date) : CreateFormState × List ApiCall × Option String × Bool :=
  let payload : Payload :=
    { title := some entered.title
    , content := some entered.content
    , date := iso_date entered.date }
  let r := create_journal o
  let form := if clearOnSubmit then initialCreateForm today else entered
  let rerun := match r.1 with
               | some js => js.truthy
               | none => false
  (form, [ApiCall.post payload], r.2, rerun)

/-- The entry-list part of the page, below the divider. -/
inductive Page where
  | fallback (msg : String)
  | grid (cells : List (Nat × Entry))
deriving Repr, DecidableEq

/-- The st.info text shown when the fetched list is empty (line 104). -/
def noEntriesMsg : String :=
  "No journal entries found (or couldn\x27t fetch). Create one above."

/-- Column assignment of the loop on lines 107-109: cols = st.columns(2);
for idx, j in enumerate(journals): c = cols[idx % 2].  The first
component of each pair is the column the card is placed in. -/
def assignColumnsFrom (i : Nat) : List Entry → List (Nat × Entry)
  | [] => []
  | j :: rest => (i % 2, j) :: assignColumnsFrom (i + 1) rest

/-- Column assignment starting at index 0, as enumerate does. -/
def assignColumns (journals : List Entry) : List (Nat × Entry) :=
  assignColumnsFrom 0 journals

/-- Lines 101-110: fetch the journals and render either the no-entries
info box (`if not journals:`) or the two-column grid of cards. -/
def renderPage (o : HttpOutcome (List Entry)) : Page :=
  let js := (fetch_journals o).1
  if js.isEmpty then Page.fallback noEntriesMsg
  else Page.grid (assignColumns js)

/-- Number of cards whose inline edit form renders (line 141 condition),
over one pass of the card loop. -/
def editingCount (s : SessionState) (journals : List Entry) : Nat :=
  journals.countP (fun j => isEditing s j)

/-! Concrete fixtures used by witnesses and counterexamples. -/

/-- The sample entry from the spec's test scenarios. -/
def entry7 : Entry :=
  { id? := some 7, title? := some "T", content? := some "C", date? := some "2024-02-02" }

/-- An entry whose dict carries none of the four keys. -/
def entryEmpty : Entry :=
  { id? := none, title? := none, content? := none, date? := none }

/-- A fixed value for today's date. -/
def today0 : Date := ⟨2024, 5, 1⟩

/-- Session state after the user opened entry7 for edit and typed new
draft values into the bound widgets. -/
def editState1 : SessionState :=
  { editId := some 7
  , editTitle := some (some "T2")
  , editContent := some (some "C2")
  , editDate := some ⟨2024, 2, 3⟩ }

/-! Claim theorems. -/

/-- C1 counterexample: a successful Save from editState1 pops only the
edit_id marker; the draft title is still stored in session state
afterwards, so the draft edit state is not cleared on success as the
claim states. -/
theorem c1_counterexample :
    handleSave entry7 editState1 (HttpOutcome.response 200 (some ())) =
      Except.ok ({ editId := none, editTitle := some (some "T2"),
                   editContent := some (some "C2"), editDate := some ⟨2024, 2, 3⟩ },
                 [ApiCall.put (some 7)
                    { title := some "T2", content := some "C2", date := "2024-02-03" }],
                 none, true) ∧
    (some (some "T2") : Option (Option String)) ≠ none :=
  ⟨rfl, by simp⟩

/-- C1 (amended): submitting Save calls update with the card's id and a
payload built from the draft; on success only the edit_id marker is
popped — the draft title/content/date values remain in session state —
and a rerun/re-fetch is triggered; on failure the state is untouched, so
the card remains EDITING with the user's draft intact, and a visible
error notice is shown. -/
theorem c1_save_behavior (j : Entry) (s : SessionState) (o : HttpOutcome Unit)
    (t c : Option String) (d : Date)
    (ht : s.editTitle = some t) (hc : s.editContent = some c)
    (hd : s.editDate = some d) :
    handleSave j s o =
      Except.ok ((if (update_journal o).1 then { s with editId := none } else s),
                 [ApiCall.put j.id? { title := t, content := c, date := iso_date d }],
                 (update_journal o).2,
                 (update_journal o).1) ∧
    ((update_journal o).1 = false → (update_journal o).2.isSome) := by
  constructor
  · simp only [handleSave, ht, hc, hd]
    by_cases h : (update_journal o).1 <;> simp [h]
  · intro h
    cases hw : writeAttempt o with
    | ok u => simp [update_journal, hw] at h
    | error e => simp [update_journal, hw]

/-- C1 witness: the amended save behaviour instantiated at entry7,
editState1 and a 200 response. -/
theorem c1_save_behavior_witness :
    handleSave entry7 editState1 (HttpOutcome.response 200 (some ())) =
      Except.ok ((if (update_journal (HttpOutcome.response 200 (some ()))).1 then
                    { editState1 with editId := none } else editState1),
                 [ApiCall.put entry7.id?
                    { title := some "T2", content := some "C2", date := iso_date ⟨2024, 2, 3⟩ }],
                 (update_journal (HttpOutcome.response 200 (some ()))).2,
                 (update_journal (HttpOutcome.response 200 (some ()))).1) ∧
    ((update_journal (HttpOutcome.response 200 (some ()))).1 = false →
      (update_journal (HttpOutcome.response 200 (some ()))).2.isSome) :=
  c1_save_behavior entry7 editState1 _ _ _ _ rfl rfl rfl

/-- C2 counterexample: with create failing (transport error), the form
afterwards holds the initial empty title, not the entered "A" — the
entered values are not retained, because clear_on_submit=True resets the
widgets on every submission. -/
theorem c2_counterexample :
    (handleCreateSubmit { title := "A", content := "B", date := ⟨2024, 1, 1⟩ }
        (HttpOutcome.transportError "connection refused") today0).1.title = "" ∧
    "A" ≠ "" :=
  ⟨rfl, by decide⟩

/-- C2 (amended): every submission of the creation form sends the entered
values in the POST payload, and because the form is declared with
clear_on_submit=True the widgets reset to the initial values (empty
title and content, today's date) regardless of the outcome; on failure an
error notice is shown and no rerun happens; on success the rerun is
triggered exactly when the created JSON is truthy. -/
theorem c2_create_submit (entered : CreateFormState) (o : HttpOutcome Json)
    (today : Date) :
    (handleCreateSubmit entered o today).1 = initialCreateForm today ∧
    (handleCreateSubmit entered o today).2.1 =
      [ApiCall.post { title := some entered.title, content := some entered.content,
                      date := iso_date entered.date }] ∧
    ((create_journal o).1 = none →
      (handleCreateSubmit entered o today).2.2.1.isSome ∧
      (handleCreateSubmit entered o today).2.2.2 = false) ∧
    (∀ js, (create_journal o).1 = some js →
      (handleCreateSubmit entered o today).2.2.2 = js.truthy) := by
  refine ⟨rfl, rfl, ?_, ?_⟩
  · intro h
    cases ha : createAttempt o with
    | ok js => simp [create_journal, ha] at h
    | error e => simp [handleCreateSubmit, create_journal, ha]
  · intro js h
    simp [handleCreateSubmit, h]

/-- C2 witness: the create-submit behaviour evaluated at a concrete
entered form and a failing outcome. -/
theorem c2_create_submit_witness :
    (handleCreateSubmit { title := "A", content := "B", date := ⟨2024, 1, 1⟩ }
        (HttpOutcome.transportError "x") today0).2.2.1.isSome ∧
    (handleCreateSubmit { title := "A", content := "B", date := ⟨2024, 1, 1⟩ }
        (HttpOutcome.transportError "x") today0).2.2.2 = false :=
  (c2_create_submit { title := "A", content := "B", date := ⟨2024, 1, 1⟩ }
    (HttpOutcome.transportError "x") today0).2.2.1 rfl

/-- C3: for every entry the rendered title and content lines are exactly
the HTML-escaped source strings in their wrappers, while the date line
carries the raw backend string, unescaped and unreformatted. -/
theorem c3_escaped_rendering (j : Entry) :
    (renderCardMarkdown j)[1]? = some (mutedDiv (j.date?.getD "")) ∧
    (renderCardMarkdown j)[2]? = some (bigTitleDiv (htmlEscape (j.title?.getD ""))) ∧
    (renderCardMarkdown j)[3]? = some (smallDiv (htmlEscape (j.content?.getD ""))) :=
  ⟨rfl, rfl, rfl⟩

/-- C4 counterexample: a 304 response — not a 2xx status — with a
decodable body is returned as-is by fetch_journals, with no error notice
and no empty-list fallback, contradicting the claim that any non-2xx
status yields a notice and an empty sequence. -/
theorem c4_counterexample :
    fetch_journals (HttpOutcome.response 304 (some [entry7])) = ([entry7], none) ∧
    ¬(200 ≤ 304 ∧ 304 < 300) :=
  ⟨rfl, by omega⟩

/-- C4 (amended): whenever the guarded GET body fails — transport error,
4xx/5xx status (the raise_for_status contract), or JSON decode failure —
fetch_journals surfaces an error notice and returns the empty list
instead of raising, and the page renders the no-entries fallback.
Statuses outside 2xx but also outside 400..599, such as 304, are treated
as success. -/
theorem c4_fetch_failure (o : HttpOutcome (List Entry)) (e : String)
    (h : fetchAttempt o = Except.error e) :
    fetch_journals o = ([], some ("Could not fetch journals: " ++ e)) ∧
    renderPage o = Page.fallback noEntriesMsg := by
  constructor
  · simp [fetch_journals, h]
  · simp [renderPage, fetch_journals, h]

/-- C4 witness: at a concrete timeout outcome the fetch returns the empty
list plus a notice, and the fallback page renders. -/
theorem c4_fetch_failure_witness :
    fetch_journals (HttpOutcome.transportError "timeout") =
      ([], some "Could not fetch journals: timeout") ∧
    renderPage (HttpOutcome.transportError "timeout") = Page.fallback noEntriesMsg :=
  c4_fetch_failure (HttpOutcome.transportError "timeout") "timeout" rfl

/-- C5 counterexample: update_journal returns true with no notice on a
304 response although 304 is not a 2xx status. -/
theorem c5_counterexample :
    update_journal (HttpOutcome.response 304 (some ())) = (true, none) ∧
    ¬(200 ≤ 304 ∧ 304 < 300) :=
  ⟨rfl, by omega⟩

/-- C5 (amended): every failure of create, update or delete — transport
error or 4xx/5xx status, plus JSON decode failure for create — is caught
inside the API client and converted to a displayed notice plus the safe
fallback (none for create, false for update and delete), never
propagated; update and delete return true exactly when a response arrived
whose status is outside 400..599, which includes every 2xx status but
also 1xx/3xx ones. -/
theorem c5_api_failures :
    (∀ (oc : HttpOutcome Json) (e : String), createAttempt oc = Except.error e →
        create_journal oc = (none, some ("Create failed: " ++ e))) ∧
    (∀ ou : HttpOutcome Unit, (update_journal ou).1 = true ↔
        ∃ s b, ou = HttpOutcome.response s b ∧ raisesForStatus s = false) ∧
    (∀ od : HttpOutcome Unit, (delete_journal od).1 = true ↔
        ∃ s b, od = HttpOutcome.response s b ∧ raisesForStatus s = false) ∧
    (∀ s : Nat, 200 ≤ s → s < 300 → raisesForStatus s = false) ∧
    (∀ ou : HttpOutcome Unit, (update_journal ou).1 = false → (update_journal ou).2.isSome) ∧
    (∀ od : HttpOutcome Unit, (delete_journal od).1 = false → (delete_journal od).2.isSome) := by
  refine ⟨?_, ?_, ?_, ?_, ?_, ?_⟩
  · intro oc e h
    simp [create_journal, h]
  · intro ou
    cases ou with
    | transportError m => simp [update_journal, writeAttempt]
    | response s b =>
        by_cases hr : raisesForStatus s <;>
          simp [update_journal, writeAttempt, hr]
  · intro od
    cases od with
    | transportError m => simp [delete_journal, writeAttempt]
    | response s b =>
        by_cases hr : raisesForStatus s <;>
          simp [delete_journal, writeAttempt, hr]
  · intro s h1 h2
    simp only [raisesForStatus]
    simp only [Bool.or_eq_false_iff, Bool.and_eq_false_iff]
    constructor <;> [left; left] <;> simp <;> omega
  · intro ou h
    cases hw : writeAttempt ou with
    | ok u => simp [update_journal, hw] at h
    | error e => simp [update_journal, hw]
  · intro od h
    cases hw : writeAttempt od with
    | ok u => simp [delete_journal, hw] at h
    | error e => simp [delete_journal, hw]

/-- C5 witness: a failing create yields the none fallback plus a notice,
and a 204 update returns true. -/
theorem c5_api_failures_witness :
    create_journal (HttpOutcome.transportError "refused") =
      (none, some "Create failed: refused") ∧
    (update_journal (HttpOutcome.response 204 (some ()))).1 = true :=
  ⟨c5_api_failures.1 (HttpOutcome.transportError "refused") "refused" rfl,
   (c5_api_failures.2.1 (HttpOutcome.response 204 (some ()))).2
     ⟨204, some (), rfl, rfl⟩⟩

/-- C6 counterexample: cancelling from editState1 pops only the edit_id
marker; the draft title is still stored in session state afterwards, so
the draft edit state is not cleared as the claim states. -/
theorem c6_counterexample :
    (handleCancel editState1).1.editTitle = some (some "T2") ∧
    (some (some "T2") : Option (Option String)) ≠ none :=
  ⟨rfl, by simp⟩

/-- C6 (amended): Cancel pops only the edit_id marker — the draft
title/content/date values stay in session state — issues no API call, so
the backend is unchanged by an edit-then-cancel sequence, triggers a
rerun, and any card with a present id is back in VIEWING. -/
theorem c6_cancel (s : SessionState) (j : Entry) (h : j.id?.isSome = true) :
    handleCancel s = ({ s with editId := none }, [], true) ∧
    isEditing (handleCancel s).1 j = false := by
  refine ⟨rfl, ?_⟩
  cases hj : j.id? with
  | none => rw [hj] at h; simp at h
  | some v => simp [isEditing, handleCancel, hj]

/-- C6 witness: cancel at editState1 and entry7. -/
theorem c6_cancel_witness :
    handleCancel editState1 = ({ editState1 with editId := none }, [], true) ∧
    isEditing (handleCancel editState1).1 entry7 = false :=
  c6_cancel editState1 entry7 rfl

/-- C7: clicking Edit snapshots the entry's id, title and content into
the draft state, parses the entry's date string as YYYY-MM-DD into the
draft date, substitutes today's date when the parse fails, and triggers a
rerun. -/
theorem c7_edit_snapshot (j : Entry) (s : SessionState) (today : Date) :
    (handleEditClick j s today).1.editId = j.id? ∧
    (handleEditClick j s today).1.editTitle = some j.title? ∧
    (handleEditClick j s today).1.editContent = some j.content? ∧
    ((∃ d, parseDateYMD (j.date?.getD "") = some d ∧
        (handleEditClick j s today).1.editDate = some d) ∨
     (parseDateYMD (j.date?.getD "") = none ∧
        (handleEditClick j s today).1.editDate = some today)) ∧
    (handleEditClick j s today).2 = true := by
  refine ⟨rfl, rfl, rfl, ?_, rfl⟩
  cases hp : parseDateYMD (j.date?.getD "") with
  | none => exact Or.inr ⟨rfl, by simp [handleEditClick, hp]⟩
  | some d => exact Or.inl ⟨d, rfl, by simp [handleEditClick, hp]⟩

/-- C7 witness: the snapshot evaluated at entry7 (parseable date) and at
entryEmpty (missing date string, today substituted). -/
theorem c7_edit_snapshot_witness :
    (handleEditClick entry7 {} today0).1.editDate = some ⟨2024, 2, 2⟩ ∧
    (handleEditClick entryEmpty {} today0).1.editDate = some today0 := by
  constructor
  · rcases (c7_edit_snapshot entry7 {} today0).2.2.2.1 with ⟨d, hd, he⟩ | ⟨hn, _⟩
    · have hval : parseDateYMD (entry7.date?.getD "") = some (⟨2024, 2, 2⟩ : Date) := by
        decide
      have hde : d = ⟨2024, 2, 2⟩ := Option.some_inj.mp (hd.symm.trans hval)
      rw [← hde]
      exact he
    · exact absurd hn (by decide)
  · rcases (c7_edit_snapshot entryEmpty {} today0).2.2.2.1 with ⟨d, hd, _⟩ | ⟨_, he⟩
    · rw [show parseDateYMD (entryEmpty.date?.getD "") = none from by decide] at hd
      cases hd
    · exact he

/-- C8: with pairwise-distinct entry ids (the backend assigns unique ids
per the data model), the single global edit_id value matches at most one
card, so at most one card renders its inline edit form in any pass of the
card loop. -/
theorem c8_at_most_one_editing (s : SessionState) (journals : List Entry)
    (h : journals.Pairwise (fun a b => a.id? ≠ b.id?)) :
    editingCount s journals ≤ 1 := by
  induction journals with
  | nil => simp [editingCount]
  | cons j rest ih =>
      rcases List.pairwise_cons.mp h with ⟨hj, hrest⟩
      by_cases he : isEditing s j
      · have hid : s.editId = j.id? := by simpa [isEditing] using he
        have hz : List.countP (fun a => isEditing s a) rest = 0 := by
          rw [List.countP_eq_zero]
          intro a ha
          simp only [isEditing, beq_iff_eq, hid]
          exact hj a ha
        simp [editingCount, List.countP_cons, he, hz]
      · have htail := ih hrest
        simp only [editingCount, List.countP_cons, he] at htail ⊢
        simpa using htail

/-- C8 witness: two distinct-id entries with the first one in edit mode
give an editing count of at most one. -/
theorem c8_at_most_one_editing_witness :
    editingCount { editId := some 1 }
      [{ id? := some 1, title? := some "a", content? := some "b", date? := some "2024-01-01" },
       { id? := some 2, title? := some "c", content? := some "d", date? := some "2024-01-02" }] ≤ 1 :=
  c8_at_most_one_editing _ _ (by decide)

/-- Projecting the column assignment back to the entries returns the
input list: the loop renders in list order. -/
theorem assignColumnsFrom_map_snd (l : List Entry) (i : Nat) :
    (assignColumnsFrom i l).map Prod.snd = l := by
  induction l generalizing i with
  | nil => rfl
  | cons j rest ih => simp [assignColumnsFrom, ih]

/-- The cell at position k of the assignment started at i holds the
entry at position k, placed in column (i + k) mod 2. -/
theorem assignColumnsFrom_getElem (l : List Entry) (i k : Nat) :
    (assignColumnsFrom i l)[k]? = (l[k]?).map (fun j => ((i + k) % 2, j)) := by
  induction l generalizing i k with
  | nil => simp [assignColumnsFrom]
  | cons j rest ih =>
      cases k with
      | zero => simp [assignColumnsFrom]
      | succ k2 =>
          have harith : i + 1 + k2 = i + (k2 + 1) := by omega
          simp [assignColumnsFrom, ih (i + 1) k2, harith]

/-- Every assigned column index is below the fixed column count 2. -/
theorem assignColumnsFrom_col_lt (l : List Entry) (i : Nat) :
    ∀ p ∈ assignColumnsFrom i l, p.1 < 2 := by
  induction l generalizing i with
  | nil => intro p hp; simp [assignColumnsFrom] at hp
  | cons j rest ih =>
      intro p hp
      rcases List.mem_cons.mp hp with h1 | h2
      · rw [h1]
        exact Nat.mod_lt _ (by omega)
      · exact ih (i + 1) p h2

/-- C9: entries render in exactly the order returned by list() — mapping
the grid cells back to their entries gives the fetched list unchanged, so
there is no client-side sort — the entry at index k is assigned to
column k mod 2, and every column index is below the fixed column
count 2. -/
theorem c9_grid_layout (journals : List Entry) :
    (assignColumns journals).map Prod.snd = journals ∧
    (∀ k : Nat, (assignColumns journals)[k]? =
        (journals[k]?).map (fun j => (k % 2, j))) ∧
    (∀ p ∈ assignColumns journals, p.1 < 2) := by
  refine ⟨assignColumnsFrom_map_snd journals 0, ?_, assignColumnsFrom_col_lt journals 0⟩
  intro k
  simpa using assignColumnsFrom_getElem journals 0 k

/-- C9 witness: the layout facts at a concrete two-entry list. -/
theorem c9_grid_layout_witness :
    (assignColumns [entry7, entryEmpty]).map Prod.snd = [entry7, entryEmpty] ∧
    (assignColumns [entry7, entryEmpty])[1]? =
      ([entry7, entryEmpty][1]?).map (fun j => (1 % 2, j)) ∧
    ((1 % 2, entryEmpty) : Nat × Entry).1 < 2 :=
  ⟨(c9_grid_layout [entry7, entryEmpty]).1,
   (c9_grid_layout [entry7, entryEmpty]).2.1 1,
   (c9_grid_layout [entry7, entryEmpty]).2.2 (1 % 2, entryEmpty) (by decide)⟩

/-- C10: rendering and action wiring stay total over entries with missing
keys: a missing title/content/date renders as the wrapper around the
empty string, and a missing id flows into the edit and delete paths as
the absent value. -/
theorem c10_missing_fields (j : Entry) (s : SessionState) (today : Date)
    (o : HttpOutcome Unit) :
    (j.title? = none → (renderCardMarkdown j)[2]? = some (bigTitleDiv "")) ∧
    (j.content? = none → (renderCardMarkdown j)[3]? = some (smallDiv "")) ∧
    (j.date? = none → (renderCardMarkdown j)[1]? = some (mutedDiv "")) ∧
    (j.id? = none →
      (handleEditClick j s today).1.editId = none ∧
      (handleDelete j o).1 = [ApiCall.del none]) := by
  refine ⟨?_, ?_, ?_, ?_⟩
  · intro h
    simp only [renderCardMarkdown, h]
    rfl
  · intro h
    simp only [renderCardMarkdown, h]
    rfl
  · intro h
    simp only [renderCardMarkdown, h]
    rfl
  · intro h
    exact ⟨by simp [handleEditClick, h], by simp [handleDelete, h]⟩

/-- C10 witness: the defaults at an entry carrying none of the keys. -/
theorem c10_missing_fields_witness :
    (renderCardMarkdown entryEmpty)[2]? = some (bigTitleDiv "") ∧
    (handleEditClick entryEmpty {} today0).1.editId = none :=
  ⟨(c10_missing_fields entryEmpty {} today0 (HttpOutcome.transportError "x")).1 rfl,
   ((c10_missing_fields entryEmpty {} today0 (HttpOutcome.transportError "x")).2.2.2 rfl).1⟩

end MindScribe
